import Mathlib

/-!
Verification development for the transcription relay service implemented in
`src/main.py`.  The file embeds, as pure Lean functions, the subtitle
conversion logic (`convert_to_srt`, including the inline timecode rendering
at lines 102-103) and the orchestration of the `/transcribe/` endpoint
(`transcribe_audio`, lines 112-177), with the external collaborators
(object store, transcription service, clock) supplied as an explicit
environment record.  Timestamps are modelled as exact rationals; rational
values are built with `mkRat` and consumed through their `num`/`den`
fields so that every definition evaluates by kernel reduction.
-/

namespace TranscriptionApp

/-- Fixed input bucket name from `src/main.py` line 30. -/
def BUCKET_NAME : String := "transcription-input-folder"

/-- Fixed output bucket name from `src/main.py` line 31. -/
def OUTPUT_BUCKET_NAME : String := "transcription-output-folder"

/-- Fixed region constant from `src/main.py` line 32. -/
def AWS_REGION : String := "ap-south-1"

/-! ## Timecode rendering (src/main.py lines 102-103) -/

/-- Two-digit zero padding, as the strftime directives `%H`, `%M`, `%S`
render their (always two-digit-bounded) numeric fields. -/
def pad2 (n : Nat) : String :=
  if n < 10 then "0" ++ toString n else toString n

/-- Floor of a rational number, computed from the reduced fraction:
`qfloor q = ⌊q.num / q.den⌋`, using Euclidean division by the positive
denominator (which rounds toward negative infinity). -/
def qfloor (q : ℚ) : Int := q.num.ediv q.den

/-- Embeds `time.strftime with format %H:%M:%S applied to time.gmtime(secs)` for an integer
number `secs` of seconds since the epoch: `gmtime` decomposes into calendar
fields, so the hour field is `(secs / 3600) mod 24` (Euclidean division),
the minute field `(secs mod 3600) / 60` and the second field `secs mod 60`,
each zero-padded to two digits. -/
def strftimeHMS (secs : Int) : String :=
  pad2 ((secs.ediv 3600).emod 24).toNat ++ ":" ++
    pad2 ((secs.emod 3600).ediv 60).toNat ++ ":" ++
    pad2 (secs.emod 60).toNat

/-- Embeds `int((t % 1) * 1000)` from `src/main.py` lines 102-103.
Python float modulo `t % 1` equals `t - ⌊t⌋` (the result lies in `[0, 1)`),
so the argument of `int` is nonnegative and `int` truncation is a floor:
the value is `⌊(t - ⌊t⌋) * 1000⌋`.  In terms of the reduced fraction
`t = t.num / t.den` this is `((t.num - ⌊t⌋ * t.den) * 1000) / t.den`
rounded toward negative infinity, which is how it is computed here.
The model computes in exact rational arithmetic, while Python evaluates
`(t % 1) * 1000` in double precision, whose rounding can shift the result
by one for non-dyadic fractions; the theorems that evaluate this function
do so at dyadic inputs, where the two agree. -/
def msPart (t : ℚ) : Int := ((t.num - qfloor t * t.den) * 1000).ediv t.den

/-- Embeds the timecode expression of `src/main.py` lines 102-103:
`time.strftime with format %H:%M:%S applied to time.gmtime(t)` followed by a comma and the
f-string rendering of `int((t % 1) * 1000)`.  `time.gmtime` floors its
float argument to an integer second count.  The millisecond count is
rendered with NO zero padding, exactly as the f-string does. -/
def srt_timecode (t : ℚ) : String :=
  strftimeHMS (qfloor t) ++ "," ++ toString (msPart t)

/-! ## Transcript payload model and `convert_to_srt` (src/main.py lines 88-109) -/

/-- Decimal value of a list of digit characters, skipping the PEP 515
underscore separators. -/
def digitsVal (l : List Char) : Nat :=
  l.foldl (fun a c => if c == '_' then a else 10 * a + (c.toNat - '0'.toNat)) 0

/-- The ASCII characters `float()` strips as surrounding whitespace:
tab, newline, vertical tab, form feed, carriage return and space
(the C `isspace` set used by the CPython float parser on ASCII input). -/
def isPySpace (c : Char) : Bool :=
  (9 ≤ c.toNat && c.toNat ≤ 13) || c.toNat == 32

/-- Strip leading and trailing whitespace, as `float()` does. -/
def stripPySpace (l : List Char) : List Char :=
  ((l.dropWhile isPySpace).reverse.dropWhile isPySpace).reverse

/-- Strip one optional leading sign; `true` means negative. -/
def stripSign : List Char → Bool × List Char
  | '-' :: rest => (true, rest)
  | '+' :: rest => (false, rest)
  | l => (false, l)

/-- Continuation of a digit run after a digit: further digits, with
single underscores allowed only between two digits (PEP 515). -/
def digitRun : List Char → Bool
  | [] => true
  | '_' :: c :: cs => c.isDigit && digitRun cs
  | ['_'] => false
  | c :: cs => c.isDigit && digitRun cs

/-- A nonempty digit run: digit, then `digitRun`. -/
def digitPartOk : List Char → Bool
  | [] => false
  | c :: cs => c.isDigit && digitRun cs

/-- An optional digit run, as allowed on either side of the decimal
point (but not on both sides at once). -/
def emptyOrDigitPart (l : List Char) : Bool :=
  l.isEmpty || digitPartOk l

/-- The least magnitude at which round-to-nearest-even carries a decimal
value to the IEEE double infinity, `2 ^ 1024 - 2 ^ 970`, written as a
literal so that it evaluates without unary exponent unfolding
(see `dblOverflow_eq`). -/
def dblOverflow : Nat :=
  179769313486231580793728971405303415079934132710037826936173778980444968292764750946649017977587207096330286416692887910946555547851940402630657488671505820681908902000708383676273854845817711531764475730270069855571366959622842914819860834936475292719074168444365510704342711559699508093042880177904174497792

theorem dblOverflow_eq : dblOverflow = 2 ^ 1024 - 2 ^ 970 := by
  norm_num [dblOverflow]

/-- Exact rational value of a signed decimal mantissa `val` (its digits
read as an integer) times `10 ^ ex`.  Returns `none` when the magnitude
reaches the double overflow threshold: there `float()` yields an
infinity, on which the subsequent `time.gmtime` call raises, so the
conversion can never return a document (see `parseFloat`). -/
def mantissaToRat (neg : Bool) (val : Nat) (ex : Int) : Option ℚ :=
  let scaled : Nat × Nat :=
    if 0 ≤ ex then (val * 10 ^ ex.toNat, 1) else (val, 10 ^ (-ex).toNat)
  if dblOverflow * scaled.2 ≤ scaled.1 then none
  else some (mkRat (if neg then -(scaled.1 : Int) else (scaled.1 : Int)) scaled.2)

/-- The mantissa of a float literal (the part before any exponent
marker): digits with at most one decimal point and at least one digit
overall, underscores only between digits. -/
def parseMantissa (neg : Bool) (m : List Char) (e : Int) : Option ℚ :=
  match m.splitOn '.' with
  | [w] => if digitPartOk w then mantissaToRat neg (digitsVal w) e else none
  | [w, f] =>
    if (emptyOrDigitPart w && emptyOrDigitPart f) && !(w.isEmpty && f.isEmpty) then
      mantissaToRat neg (digitsVal w * 10 ^ f.countP Char.isDigit + digitsVal f)
        (e - (f.countP Char.isDigit : Int))
    else none
  | _ => none

/-- Models Python `float(s)` for strings over the ASCII repertoire:
strip surrounding whitespace, an optional sign, then either one of the
words `inf`, `infinity`, `nan` (case-insensitive) or a decimal mantissa
with an optional `e`/`E` exponent (itself optionally signed), with
PEP 515 underscores permitted between digits.  The value is returned as
an exact rational; `none` is returned exactly where `float()` raises
`ValueError` — and additionally for the non-finite results (the three
words, and magnitudes at or above the double overflow threshold, which
`float()` turns into an infinity): a non-finite timestamp makes the
subsequent `time.gmtime` call raise, so folding it into the parse
failure preserves the raise-versus-document behaviour of the conversion.
Unicode digit and whitespace forms, which `float()` maps to ASCII before
parsing, lie outside the repertoire handled here (see `asciiTimes`). -/
def parseFloat (s : String) : Option ℚ :=
  let sgn := stripSign (stripPySpace s.data)
  let body := sgn.2.map Char.toLower
  if body == ['i', 'n', 'f'] || body == ['i', 'n', 'f', 'i', 'n', 'i', 't', 'y']
      || body == ['n', 'a', 'n'] then
    none
  else
    match body.splitOn 'e' with
    | [m] => parseMantissa sgn.1 m 0
    | [m, ex] =>
      let esgn := stripSign ex
      if digitPartOk esgn.2 then
        parseMantissa sgn.1 m
          (if esgn.1 then -(digitsVal esgn.2 : Int) else (digitsVal esgn.2 : Int))
      else none
    | _ => none

/-- One element of the `alternatives` array of a transcript item; the
`content` key may be absent (`none`). -/
structure Alternative where
  content : Option String
deriving Repr, DecidableEq

/-- One element of `results.items` in the transcript payload.  Each of the
keys `start_time`, `end_time` and `alternatives` may be absent. -/
structure TransItem where
  start_time : Option String
  end_time : Option String
  alternatives : Option (List Alternative)
deriving Repr, DecidableEq

/-- The `results` object of the transcript payload; the `items` key may be
absent. -/
structure Results where
  items : Option (List TransItem)
deriving Repr, DecidableEq

/-- A transcript payload as consumed by `convert_to_srt`; the `results`
key may be absent. -/
structure TranscriptionJson where
  results : Option Results
deriving Repr, DecidableEq

/-- Embeds the loop of `convert_to_srt` (src/main.py lines 95-107):
walks the items, skipping those without both `start_time` and `end_time`;
for the others it parses the two times (`float(...)`, `ValueError` on
failure), reads `alternatives[0].content` (`KeyError` / `IndexError` on
failure) and appends the numbered SRT entry, incrementing the counter only
for emitted entries.  A raised exception is modelled as `Except.error`
with the exception text. -/
def srtEntries : List TransItem → Nat → Except String (List String)
  | [], _ => .ok []
  | item :: rest, counter =>
    match item.start_time, item.end_time with
    | some st, some et =>
      match parseFloat st with
      | none => .error ("ValueError: could not convert string to float: " ++ st)
      | some start_time =>
        match parseFloat et with
        | none => .error ("ValueError: could not convert string to float: " ++ et)
        | some end_time =>
          match item.alternatives with
          | none => .error "KeyError: alternatives"
          | some alts =>
            match alts with
            | [] => .error "IndexError: list index out of range"
            | alt0 :: _ =>
              match alt0.content with
              | none => .error "KeyError: content"
              | some content =>
                match srtEntries rest (counter + 1) with
                | .error m => .error m
                | .ok es =>
                  .ok ((toString counter ++ "\n" ++ srt_timecode start_time ++ " --> "
                        ++ srt_timecode end_time ++ "\n" ++ content ++ "\n") :: es)
    | _, _ => srtEntries rest counter

/-- Embeds `convert_to_srt` (src/main.py lines 88-109): accesses
`transcription_json.results.items` (`KeyError` when absent), runs the
entry loop starting at counter 1 and joins the entries with
`"\n".join(...)`. -/
def convert_to_srt (transcription_json : TranscriptionJson) : Except String String :=
  match transcription_json.results with
  | none => .error "KeyError: results"
  | some res =>
    match res.items with
    | none => .error "KeyError: items"
    | some items =>
      match srtEntries items 1 with
      | .error m => .error m
      | .ok es => .ok (String.intercalate "\n" es)

/-! ## Orchestration model for the `/transcribe/` endpoint
(src/main.py lines 112-177) -/

/-- An exception raised inside the `try` block of `transcribe_audio`:
either a `fastapi.HTTPException` (raised for a FAILED job) or any other
exception, carried as its message `str(e)`. -/
inductive PyExn where
  | http (status_code : Nat) (detail : String)
  | err (msg : String)
deriving Repr, DecidableEq

/-- Python `str(e)`: for `fastapi.HTTPException` (starlette) this renders
as `"<status_code>: <detail>"`; for a generic exception it is the carried
message. -/
def strOfExn : PyExn → String
  | .http c d => toString c ++ ": " ++ d
  | .err m => m

/-- The error response raised at the request boundary by the
`except Exception` handler (src/main.py lines 176-177):
`HTTPException(status_code=500, detail=str(e))`. -/
structure HTTPError where
  status_code : Nat
  detail : String
deriving Repr, DecidableEq

/-- The success JSON body of the `/transcribe/` endpoint
(src/main.py line 174). -/
structure TranscribeResponse where
  message : String
  srt_file_url : String
deriving Repr, DecidableEq

/-- One poll response from `get_transcription_job`: the job status
string, and the `Transcript.TranscriptFileUri` key chain (absent when the
service did not populate it). -/
structure JobResponse where
  status : String
  transcriptFileUri : Option String
deriving Repr, DecidableEq

/-- One outbound call made by the endpoint against the external
collaborators, recorded for the side-effect trace. -/
inductive Call where
  | put (bucket key : String)
  | startJob (jobName language : String)
  | getJob (jobName : String)
  | getObject (bucket key : String)
deriving Repr, DecidableEq

/-- Outcomes of the external collaborators for one request, supplied to
the orchestration as data: the object-store `put_object` outcome, the
`start_transcription_job` outcome, the successive `get_transcription_job`
responses, the body fetched by `get_object` for the transcript key, a
JSON-parse oracle for that body, the submission-time epoch value
`int(time.time())`, and the request parameters. -/
structure Env where
  putResult : Except String Unit
  startJobResult : Except String Unit
  polls : List (Except String JobResponse)
  fetchedBody : Except String String
  parse : String → Except String Unit
  epoch : Nat
  filename : String
  language : String

/-- Does the pattern `p` occur as an initial segment of `l`? -/
def startsWithL : List Char → List Char → Bool
  | [], _ => true
  | _ :: _, [] => false
  | p :: ps, c :: cs => p == c && startsWithL ps cs

/-- Fuel-driven worker for `pySplit`; the fuel is always sufficient at the
call site, the `0` case is unreachable. -/
def pySplitGo (sep : List Char) : Nat → List Char → List (List Char)
  | 0, l => [l]
  | fuel + 1, l =>
    if startsWithL sep l && !sep.isEmpty then
      [] :: pySplitGo sep fuel (l.drop sep.length)
    else
      match l with
      | [] => [[]]
      | c :: cs =>
        match pySplitGo sep fuel cs with
        | [] => [[c]]
        | p :: ps => (c :: p) :: ps

/-- Models Python `s.split(sep)` for a nonempty separator: the pieces of
`s` between the non-overlapping occurrences of `sep`, scanned left to
right.  When `sep` does not occur the result is `[s]`. -/
def pySplit (sep : List Char) (l : List Char) : List (List Char) :=
  pySplitGo sep (l.length + 1) l

/-- Embeds the polling loop (src/main.py lines 154-160): repeatedly call
`get_transcription_job`; a raised exception aborts, a status in
`["COMPLETED", "FAILED"]` breaks the loop with that response; otherwise
sleep and poll again.  The result is `none` when the supplied poll
outcomes are exhausted without reaching a terminal status (the real loop
would keep polling forever); otherwise the loop outcome together with the
trace of `get_transcription_job` calls made. -/
def pollLoop (jobName : String) :
    List (Except String JobResponse) → Option (Except PyExn JobResponse × List Call)
  | [] => none
  | p :: rest =>
    match p with
    | .error m => some (.error (.err m), [Call.getJob jobName])
    | .ok r =>
      if r.status = "COMPLETED" || r.status = "FAILED" then
        some (.ok r, [Call.getJob jobName])
      else
        match pollLoop jobName rest with
        | none => none
        | some (res, tr) => some (res, Call.getJob jobName :: tr)

/-- Embeds the `/transcribe/` endpoint `transcribe_audio`
(src/main.py lines 112-177).  The body of the `try` block runs in order:
`put_object` upload, `start_transcription_job`, the polling loop, the
FAILED check (`HTTPException(500, "Transcription failed.")`), the
`Transcript.TranscriptFileUri` lookup, the `get_object` fetch of the key
obtained by splitting the URI on `"<output bucket>/"` and taking the last
piece, `json.loads` of the body (the parsed value is never used), and
finally the success response whose URL is built from the output bucket,
region and `f"<job_name>.srt"`.  Any exception is caught at lines 176-177
and surfaced as `HTTPException(500, str(e))`.  The result is `none` when
the polling loop never terminates, else the response (success or error)
paired with the trace of external calls. -/
def transcribe_audio (env : Env) :
    Option (Except HTTPError TranscribeResponse × List Call) :=
  let s3_object_key := "uploads/" ++ env.filename
  let job_name := "transcription-" ++ toString env.epoch
  let boundary : PyExn → Except HTTPError TranscribeResponse :=
    fun e => .error ⟨500, strOfExn e⟩
  let trace0 := [Call.put BUCKET_NAME s3_object_key]
  match env.putResult with
  | .error m => some (boundary (.err m), trace0)
  | .ok _ =>
    let trace1 := trace0 ++ [Call.startJob job_name env.language]
    match env.startJobResult with
    | .error m => some (boundary (.err m), trace1)
    | .ok _ =>
      match pollLoop job_name env.polls with
      | none => none
      | some (pollRes, pollTrace) =>
        let trace2 := trace1 ++ pollTrace
        match pollRes with
        | .error e => some (boundary e, trace2)
        | .ok r =>
          if r.status = "FAILED" then
            some (boundary (.http 500 "Transcription failed."), trace2)
          else
            match r.transcriptFileUri with
            | none => some (boundary (.err "KeyError: Transcript"), trace2)
            | some transcript_uri =>
              let key := String.mk ((pySplit (OUTPUT_BUCKET_NAME ++ "/").data
                transcript_uri.data).getLastD [])
              let trace3 := trace2 ++ [Call.getObject OUTPUT_BUCKET_NAME key]
              match env.fetchedBody with
              | .error m => some (boundary (.err m), trace3)
              | .ok body =>
                match env.parse body with
                | .error m => some (boundary (.err m), trace3)
                | .ok _ =>
                  let subtitle_key := job_name ++ ".srt"
                  let srt_file_url := "https://" ++ OUTPUT_BUCKET_NAME ++ ".s3."
                    ++ AWS_REGION ++ ".amazonaws.com/" ++ subtitle_key
                  some (.ok ⟨"Transcription successful", srt_file_url⟩, trace3)

/-- Does the trace contain a `start_transcription_job` call? -/
def callsStartJob (tr : List Call) : Bool :=
  tr.any fun c => match c with
    | .startJob _ _ => true
    | _ => false

/-! ## Timecode shape and reference values (claims C1-C4) -/

/-- Does a string have the SRT timecode shape
`dd:dd:dd,ddd` (exactly three millisecond digits)? -/
def matchesSrtTimecode (s : String) : Bool :=
  match s.data with
  | [h1, h2, c1, m1, m2, c2, s1, s2, c3, d1, d2, d3] =>
    h1.isDigit && h2.isDigit && c1 == ':' && m1.isDigit && m2.isDigit && c2 == ':'
      && s1.isDigit && s2.isDigit && c3 == ',' && d1.isDigit && d2.isDigit && d3.isDigit
  | _ => false

theorem pad2_length (n : Nat) (h : n < 100) : (pad2 n).length = 2 := by
  revert n h
  decide

theorem take_two_append_left (s t : String) (h : 2 ≤ s.length) :
    (s ++ t).take 2 = s.take 2 := by
  apply String.ext
  rw [String.data_take, String.data_append, String.data_take,
    List.take_append_of_le_length h]

theorem take_two_of_length_two (s : String) (h : s.length = 2) : s.take 2 = s := by
  apply String.ext
  rw [String.data_take, List.take_of_length_le (Nat.le_of_eq h)]

/-- C1: the claim states that for every nonnegative timestamp the rendered
timecode matches `dd:dd:dd,ddd` with exactly three zero-padded millisecond
digits.  The code renders the millisecond count with a bare f-string and
no padding, so at `t = 0` it produces `"00:00:00,0"`, which does not match
the pattern.  The intent (the stated purpose of the function is SRT output,
whose timecodes have exactly three millisecond digits) makes the missing
zero padding a slip in the code. -/
theorem c1_ms_unpadded_at_zero :
    srt_timecode 0 = "00:00:00,0" ∧ matchesSrtTimecode (srt_timecode 0) = false :=
  ⟨rfl, rfl⟩

/-- C2 counterexample: at `t = 90000` (which is `≥ 86400`) the integer
hour count `⌊t / 3600⌋` is `25`, but the rendered HH component is `"01"`:
`time.gmtime` wraps the hour field modulo 24, refuting the claim that no
modulo-24 wraparound happens. -/
theorem c2_hours_wrap_at_90000 :
    (86400 : ℚ) ≤ 90000 ∧ (qfloor (90000 : ℚ)).ediv 3600 = 25
      ∧ (srt_timecode 90000).take 2 = "01" ∧ ("01" : String) ≠ "25" := by
  refine ⟨by decide, by decide, ?_, by decide⟩
  rfl

/-- C2 (amended): for every nonnegative timestamp `t` the HH component of
the produced timecode is `⌊t / 3600⌋ mod 24`, zero-padded to two digits —
`time.gmtime` wraps the hour field modulo 24, so for `t ≥ 86400` the full
integer hour count is NOT rendered. -/
theorem c2_hh_is_hours_mod_24 (t : ℚ) (ht : 0 ≤ t) :
    (srt_timecode t).take 2 = pad2 (((qfloor t).ediv 3600).emod 24).toNat := by
  have hlen : (pad2 (((qfloor t).ediv 3600).emod 24).toNat).length = 2 := by
    apply pad2_length
    have h24 : ((qfloor t).ediv 3600).emod 24 < 24 :=
      Int.emod_lt_of_pos _ (by decide)
    have h0 : 0 ≤ ((qfloor t).ediv 3600).emod 24 :=
      Int.emod_nonneg _ (by decide)
    omega
  have hshape : srt_timecode t =
      pad2 (((qfloor t).ediv 3600).emod 24).toNat ++
        (":" ++ pad2 (((qfloor t).emod 3600).ediv 60).toNat ++ ":"
          ++ pad2 ((qfloor t).emod 60).toNat ++ "," ++ toString (msPart t)) := by
    simp only [srt_timecode, strftimeHMS, String.append_assoc]
  rw [hshape, take_two_append_left _ _ (le_of_eq hlen.symm),
    take_two_of_length_two _ hlen]

/-- Witness for `c2_hh_is_hours_mod_24` at the concrete timestamp
`t = 90000` (25 hours), where the rendered HH component is `"01"`. -/
theorem c2_hh_is_hours_mod_24_witness :
    (0 : ℚ) ≤ 90000 ∧ (srt_timecode (90000 : ℚ)).take 2 =
      pad2 (((qfloor (90000 : ℚ)).ediv 3600).emod 24).toNat :=
  ⟨by decide, c2_hh_is_hours_mod_24 90000 (by decide)⟩

/-- C3: the claim states that a single timed token `"hi"` from 0.0 to 0.5
seconds yields exactly `"1\n00:00:00,000 --> 00:00:00,500\nhi\n"`.  The
code actually yields `"1\n00:00:00,0 --> 00:00:00,500\nhi\n"`: the start
millisecond field of the start timecode is the unpadded `"0"`, the same missing zero
padding slip as in the timecode component (the stated purpose of the function
is SRT output, which requires three millisecond digits). -/
theorem c3_single_token_output :
    convert_to_srt ⟨some ⟨some [⟨some "0.0", some "0.5", some [⟨some "hi"⟩]⟩]⟩⟩ =
        .ok "1\n00:00:00,0 --> 00:00:00,500\nhi\n" ∧
      ("1\n00:00:00,0 --> 00:00:00,500\nhi\n" : String) ≠
        "1\n00:00:00,000 --> 00:00:00,500\nhi\n" :=
  ⟨rfl, by decide⟩

/-- C4: of the two reference equalities claimed for the timecode
formatting, `srt_timecode 3661.25 = "01:01:01,250"` holds but
`srt_timecode 0 = "00:00:00,000"` fails: the code renders `"00:00:00,0"`
because the millisecond field is not zero-padded (a slip relative to the
stated SRT purpose of the function). -/
theorem c4_reference_equalities :
    srt_timecode 0 = "00:00:00,0" ∧ srt_timecode (3661.25 : ℚ) = "01:01:01,250"
      ∧ srt_timecode 0 ≠ "00:00:00,000" := by
  refine ⟨rfl, ?_, by decide⟩
  rw [show (3661.25 : ℚ) = mkRat 14645 4 by
    rw [Rat.mkRat_eq_divInt, Rat.divInt_eq_div]; norm_num]
  rfl

/-! ## Cue structure of the produced document (claim C5) -/

/-- The ordered subsequence of items carrying both `start_time` and
`end_time`, each reduced to its parsed start, parsed end and first
content of the first alternative — the tokens the SubtitleBuilder contract says
become cues, in source order.  Fails with the same exception text as the
conversion loop where the loop would raise. -/
def timedTokens : List TransItem → Except String (List (ℚ × ℚ × String))
  | [] => .ok []
  | item :: rest =>
    match item.start_time, item.end_time with
    | some st, some et =>
      match parseFloat st with
      | none => .error ("ValueError: could not convert string to float: " ++ st)
      | some s =>
        match parseFloat et with
        | none => .error ("ValueError: could not convert string to float: " ++ et)
        | some e =>
          match item.alternatives with
          | none => .error "KeyError: alternatives"
          | some alts =>
            match alts with
            | [] => .error "IndexError: list index out of range"
            | alt0 :: _ =>
              match alt0.content with
              | none => .error "KeyError: content"
              | some content =>
                match timedTokens rest with
                | .error m => .error m
                | .ok toks => .ok ((s, e, content) :: toks)
    | _, _ => timedTokens rest

/-- One SRT cue as the loop renders it: the 1-based index, the two
timecodes joined by `" --> "`, and the content, each line
newline-terminated. -/
def renderCue (idx : Nat) (tok : ℚ × ℚ × String) : String :=
  toString idx ++ "\n" ++ srt_timecode tok.1 ++ " --> " ++ srt_timecode tok.2.1
    ++ "\n" ++ tok.2.2 ++ "\n"

/-- Does an item carry both timing keys? -/
def isTimed (it : TransItem) : Bool :=
  it.start_time.isSome && it.end_time.isSome

theorem srtEntries_eq_timedTokens (items : List TransItem) :
    ∀ c, srtEntries items c = (timedTokens items).map
      (fun toks => (toks.enumFrom c).map fun p => renderCue p.1 p.2) := by
  induction items with
  | nil => intro c; rfl
  | cons item rest ih =>
    intro c
    obtain ⟨ost, oet, oalts⟩ := item
    cases ost with
    | none => exact ih c
    | some st =>
      cases oet with
      | none => exact ih c
      | some et =>
        cases hps : parseFloat st with
        | none => simp [srtEntries, timedTokens, hps, Except.map]
        | some s =>
          cases hpe : parseFloat et with
          | none => simp [srtEntries, timedTokens, hps, hpe, Except.map]
          | some e =>
            cases oalts with
            | none => simp [srtEntries, timedTokens, hps, hpe, Except.map]
            | some alts =>
              cases alts with
              | nil => simp [srtEntries, timedTokens, hps, hpe, Except.map]
              | cons alt0 tl =>
                cases hc : alt0.content with
                | none => simp [srtEntries, timedTokens, hps, hpe, hc, Except.map]
                | some content =>
                  cases hrest : timedTokens rest with
                  | error m =>
                    simp [srtEntries, timedTokens, hps, hpe, hc, hrest,
                      ih (c + 1), Except.map]
                  | ok toks =>
                    simp [srtEntries, timedTokens, hps, hpe, hc, hrest,
                      ih (c + 1), Except.map, List.enumFrom, renderCue]

theorem timedTokens_length (items : List TransItem) (toks : List (ℚ × ℚ × String))
    (h : timedTokens items = .ok toks) :
    toks.length = (items.filter isTimed).length := by
  induction items generalizing toks with
  | nil =>
    simp only [timedTokens] at h
    cases h
    rfl
  | cons item rest ih =>
    obtain ⟨ost, oet, oalts⟩ := item
    revert h
    cases ost with
    | none =>
      intro h
      simpa [List.filter, isTimed] using ih _ h
    | some st =>
      cases oet with
      | none =>
        intro h
        simpa [List.filter, isTimed] using ih _ h
      | some et =>
        intro h
        cases hps : parseFloat st with
        | none => simp [timedTokens, hps] at h
        | some s =>
          cases hpe : parseFloat et with
          | none => simp [timedTokens, hps, hpe] at h
          | some e =>
            cases oalts with
            | none => simp [timedTokens, hps, hpe] at h
            | some alts =>
              cases alts with
              | nil => simp [timedTokens, hps, hpe] at h
              | cons alt0 tl =>
                cases hc : alt0.content with
                | none => simp [timedTokens, hps, hpe, hc] at h
                | some content =>
                  cases hrest : timedTokens rest with
                  | error m => simp [timedTokens, hps, hpe, hc, hrest] at h
                  | ok toks0 =>
                    simp only [timedTokens, hps, hpe, hc, hrest] at h
                    cases h
                    simpa [List.filter, isTimed] using ih _ hrest

/-- C5: whenever `convert_to_srt` returns a document for a payload with an
item list, the document is exactly the `"\n"`-join of one cue per timed
token (tokens lacking `start_time` or `end_time` contribute no cue at
all), the cues keep the source order of the timed tokens, and their
indices are `1, 2, ..., N` in emission order, where `N` is the number of
timed tokens. -/
theorem c5_cues_numbered_timed_tokens (items : List TransItem) (doc : String)
    (h : convert_to_srt ⟨some ⟨some items⟩⟩ = .ok doc) :
    ∃ toks, timedTokens items = .ok toks
      ∧ toks.length = (items.filter isTimed).length
      ∧ doc = String.intercalate "\n"
          ((toks.enumFrom 1).map fun p => renderCue p.1 p.2) := by
  simp only [convert_to_srt] at h
  rw [srtEntries_eq_timedTokens items 1] at h
  revert h
  cases htt : timedTokens items with
  | error m => intro h; cases h
  | ok toks =>
    intro h
    simp only [Except.map] at h
    cases h
    exact ⟨toks, rfl, timedTokens_length items toks htt, rfl⟩

/-- Witness for `c5_cues_numbered_timed_tokens` on a concrete payload with
one untimed item between two timed ones: the untimed item is dropped and
the two cues are numbered 1 and 2. -/
theorem c5_cues_numbered_timed_tokens_witness :
    convert_to_srt ⟨some ⟨some
        [⟨none, none, some [⟨some "uh"⟩]⟩,
         ⟨some "0.5", some "1.25", some [⟨some "Hello"⟩]⟩,
         ⟨some "1.25", some "2.75", some [⟨some "world"⟩]⟩]⟩⟩ =
      .ok "1\n00:00:00,500 --> 00:00:01,250\nHello\n\n2\n00:00:01,250 --> 00:00:02,750\nworld\n"
    ∧ ∃ toks, timedTokens
        [⟨none, none, some [⟨some "uh"⟩]⟩,
         ⟨some "0.5", some "1.25", some [⟨some "Hello"⟩]⟩,
         ⟨some "1.25", some "2.75", some [⟨some "world"⟩]⟩] = .ok toks
      ∧ toks.length = (List.filter isTimed
          [⟨none, none, some [⟨some "uh"⟩]⟩,
           ⟨some "0.5", some "1.25", some [⟨some "Hello"⟩]⟩,
           ⟨some "1.25", some "2.75", some [⟨some "world"⟩]⟩]).length
      ∧ "1\n00:00:00,500 --> 00:00:01,250\nHello\n\n2\n00:00:01,250 --> 00:00:02,750\nworld\n"
          = String.intercalate "\n"
            ((toks.enumFrom 1).map fun p => renderCue p.1 p.2) :=
  ⟨rfl, c5_cues_numbered_timed_tokens _ _ rfl⟩

/-! ## Totality precondition of `convert_to_srt` (claim C10) -/

/-- Is one item harmless for the conversion loop?  An item lacking
`start_time` or `end_time` is skipped, so it is always fine; an item
carrying both must have parseable times and a nonempty `alternatives`
list whose first element carries `content`. -/
def itemOk (it : TransItem) : Bool :=
  match it.start_time, it.end_time with
  | some st, some et =>
    (parseFloat st).isSome && (parseFloat et).isSome &&
      (match it.alternatives with
       | some (a :: _) => a.content.isSome
       | _ => false)
  | _, _ => true

/-- Is a string within the ASCII repertoire? -/
def asciiStr (s : String) : Bool :=
  s.data.all fun c => c.toNat < 128

/-- Do the timing strings of an item lie within ASCII? -/
def itemAsciiTimes (it : TransItem) : Bool :=
  it.start_time.all asciiStr && it.end_time.all asciiStr

/-- Do all timing strings of the payload lie within ASCII?  This is the
repertoire on which `parseFloat` coincides with Python `float()`: the
latter additionally maps Unicode decimal digits and Unicode whitespace
to ASCII before parsing.  Transcription payloads are plain-ASCII JSON. -/
def asciiTimes (j : TranscriptionJson) : Bool :=
  match j.results with
  | none => true
  | some r =>
    match r.items with
    | none => true
    | some items => items.all itemAsciiTimes

/-- The precondition under which `convert_to_srt` is total: a `results`
object with an `items` list in which every timed item is well-shaped. -/
def wellFormedJson (j : TranscriptionJson) : Bool :=
  match j.results with
  | none => false
  | some r =>
    match r.items with
    | none => false
    | some items => items.all itemOk

theorem srtEntries_isOk (items : List TransItem) :
    ∀ c, (srtEntries items c).isOk = items.all itemOk := by
  induction items with
  | nil => intro c; rfl
  | cons item rest ih =>
    intro c
    obtain ⟨ost, oet, oalts⟩ := item
    cases ost with
    | none => simpa [srtEntries, itemOk] using ih c
    | some st =>
      cases oet with
      | none => simpa [srtEntries, itemOk] using ih c
      | some et =>
        cases hps : parseFloat st with
        | none => simp [srtEntries, itemOk, hps, Except.isOk, Except.toBool]
        | some s =>
          cases hpe : parseFloat et with
          | none => simp [srtEntries, itemOk, hps, hpe, Except.isOk, Except.toBool]
          | some e =>
            cases oalts with
            | none => simp [srtEntries, itemOk, hps, hpe, Except.isOk, Except.toBool]
            | some alts =>
              cases alts with
              | nil => simp [srtEntries, itemOk, hps, hpe, Except.isOk, Except.toBool]
              | cons alt0 tl =>
                cases hc : alt0.content with
                | none => simp [srtEntries, itemOk, hps, hpe, hc, Except.isOk, Except.toBool]
                | some content =>
                  cases hrest : srtEntries rest (c + 1) with
                  | error m =>
                    have := ih (c + 1)
                    rw [hrest] at this
                    simp [srtEntries, itemOk, hps, hpe, hc, hrest,
                      Except.isOk, Except.toBool, ← this]
                  | ok es =>
                    have := ih (c + 1)
                    rw [hrest] at this
                    simp [srtEntries, itemOk, hps, hpe, hc, hrest,
                      Except.isOk, Except.toBool, ← this]

/-- C10: for payloads whose timing strings are ASCII (the repertoire on
which the `float()` model is exact; transcription payloads are
plain-ASCII JSON), `convert_to_srt` succeeds exactly on payloads
satisfying the well-formedness precondition — a `results` object
carrying an `items` list in which every item with both `start_time` and
`end_time` has times the `float()` grammar accepts (finitely) and a
nonempty `alternatives` list whose first element carries `content`.  On
any such payload violating the precondition the function raises (returns
an error) instead of producing a document; items lacking a timing key
need no other key.  Two scoping notes, both spelled out in the model:
times parsing to a non-finite float (`inf`, `nan`, overflow to infinity)
are counted as parse failures, because on them the subsequent
`time.gmtime` call raises, so the conversion never returns a document
either way; and the clock conversion itself is modelled as total
calendar arithmetic (as in all the timecode theorems), so the platform
range errors `time.gmtime` raises for astronomically large finite
timestamps — which are outside the error classes this claim enumerates
(missing key, out of bounds, parse failure) — do not appear. -/
theorem c10_total_iff_well_formed (j : TranscriptionJson)
    (hascii : asciiTimes j = true) :
    (convert_to_srt j).isOk = wellFormedJson j := by
  obtain ⟨ores⟩ := j
  cases ores with
  | none => rfl
  | some res =>
    obtain ⟨oitems⟩ := res
    cases oitems with
    | none => rfl
    | some items =>
      have h := srtEntries_isOk items 1
      cases hse : srtEntries items 1 with
      | error m =>
        rw [hse] at h
        simpa [convert_to_srt, wellFormedJson, hse, Except.isOk, Except.toBool] using h
      | ok es =>
        rw [hse] at h
        simpa [convert_to_srt, wellFormedJson, hse, Except.isOk, Except.toBool] using h

/-- Witness for `c10_total_iff_well_formed` on a concrete ASCII payload
whose timing strings exercise the whitespace, exponent and underscore
forms of the `float()` grammar. -/
theorem c10_total_iff_well_formed_witness :
    asciiTimes ⟨some ⟨some [⟨some " 1.5e1 ", some "1_6.25", some [⟨some "hi"⟩]⟩]⟩⟩ = true
      ∧ (convert_to_srt ⟨some ⟨some [⟨some " 1.5e1 ", some "1_6.25", some [⟨some "hi"⟩]⟩]⟩⟩).isOk
          = wellFormedJson ⟨some ⟨some [⟨some " 1.5e1 ", some "1_6.25", some [⟨some "hi"⟩]⟩]⟩⟩ :=
  ⟨by decide,
   c10_total_iff_well_formed ⟨some ⟨some [⟨some " 1.5e1 ", some "1_6.25", some [⟨some "hi"⟩]⟩]⟩⟩
     (by decide)⟩

/-! ## Orchestration claims (C6-C9) -/

/-- The URL the endpoint returns on success: output bucket, region, and
the job-name-derived subtitle key. -/
def outputUrl (epoch : Nat) : String :=
  "https://" ++ OUTPUT_BUCKET_NAME ++ ".s3." ++ AWS_REGION ++ ".amazonaws.com/"
    ++ ("transcription-" ++ toString epoch ++ ".srt")

/-- Does a URL point into the fixed output bucket location? -/
def referencesOutputBucket (u : String) : Bool :=
  startsWithL ("https://" ++ OUTPUT_BUCKET_NAME ++ ".s3." ++ AWS_REGION
    ++ ".amazonaws.com/").data u.data

theorem startsWithL_self_append (p s : List Char) :
    startsWithL p (p ++ s) = true := by
  induction p with
  | nil => rfl
  | cons c cs ih => simp [startsWithL, ih]

theorem referencesOutputBucket_outputUrl (epoch : Nat) :
    referencesOutputBucket (outputUrl epoch) = true := by
  unfold referencesOutputBucket outputUrl
  rw [String.data_append]
  exact startsWithL_self_append _ _

/-- Any success response of the endpoint is the fixed message together
with the URL built from the output bucket, the region and the job name —
nothing else about the environment (in particular, not the fetched
transcript) reaches the response. -/
theorem transcribe_ok_shape (env : Env) (r : TranscribeResponse) (tr : List Call)
    (h : transcribe_audio env = some (.ok r, tr)) :
    r = ⟨"Transcription successful", outputUrl env.epoch⟩ := by
  unfold transcribe_audio at h
  dsimp only at h
  cases hl : pollLoop ("transcription-" ++ toString env.epoch) env.polls with
  | none =>
    rw [hl] at h
    repeat' split at h
    all_goals simp_all
  | some pr =>
    obtain ⟨pollRes, pollTrace⟩ := pr
    rw [hl] at h
    repeat' split at h
    all_goals simp_all [outputUrl]

/-- C6: when the upload and the job submission succeed, the polling loop
observes terminal status COMPLETED, the transcript URI is present and the
result fetch and parse succeed, the endpoint returns the success response
whose `srt_file_url` is the well-formed URL of the subtitle
artifact in the output bucket. -/
theorem c6_completed_returns_output_url (env : Env) (r : JobResponse)
    (uri body : String)
    (hput : env.putResult = .ok ())
    (hstart : env.startJobResult = .ok ())
    (hpoll : ∃ ptr, pollLoop ("transcription-" ++ toString env.epoch) env.polls
      = some (.ok r, ptr))
    (hstatus : r.status = "COMPLETED")
    (huri : r.transcriptFileUri = some uri)
    (hfetch : env.fetchedBody = .ok body)
    (hparse : env.parse body = .ok ()) :
    (∃ tr, transcribe_audio env =
        some (.ok ⟨"Transcription successful", outputUrl env.epoch⟩, tr))
      ∧ referencesOutputBucket (outputUrl env.epoch) = true := by
  obtain ⟨ptr, hpoll⟩ := hpoll
  have htr : transcribe_audio env =
      some (.ok ⟨"Transcription successful", outputUrl env.epoch⟩,
        Call.put BUCKET_NAME ("uploads/" ++ env.filename) ::
          Call.startJob ("transcription-" ++ toString env.epoch) env.language ::
            (ptr ++ [Call.getObject OUTPUT_BUCKET_NAME
              ⟨(pySplit (OUTPUT_BUCKET_NAME ++ "/").data uri.data).getLastD []⟩])) := by
    simp [transcribe_audio, hput, hstart, hpoll, hstatus, huri, hfetch, hparse,
      outputUrl]
  exact ⟨⟨_, htr⟩, referencesOutputBucket_outputUrl env.epoch⟩

/-- Witness for `c6_completed_returns_output_url` on a concrete
environment whose second poll reports COMPLETED. -/
theorem c6_completed_returns_output_url_witness :
    (∃ tr, transcribe_audio
        ⟨.ok (), .ok (),
          [.ok ⟨"IN_PROGRESS", none⟩,
           .ok ⟨"COMPLETED", some "https://s3.ap-south-1.amazonaws.com/transcription-output-folder/transcription-1700000000.json"⟩],
          .ok "x", fun _ => .ok (), 1700000000, "a.wav", "en-US"⟩ =
        some (.ok ⟨"Transcription successful", outputUrl 1700000000⟩, tr))
      ∧ referencesOutputBucket (outputUrl 1700000000) = true :=
  c6_completed_returns_output_url
    ⟨.ok (), .ok (),
      [.ok ⟨"IN_PROGRESS", none⟩,
       .ok ⟨"COMPLETED", some "https://s3.ap-south-1.amazonaws.com/transcription-output-folder/transcription-1700000000.json"⟩],
      .ok "x", fun _ => .ok (), 1700000000, "a.wav", "en-US"⟩
    ⟨"COMPLETED", some "https://s3.ap-south-1.amazonaws.com/transcription-output-folder/transcription-1700000000.json"⟩
    "https://s3.ap-south-1.amazonaws.com/transcription-output-folder/transcription-1700000000.json"
    "x" rfl rfl
    ⟨[Call.getJob "transcription-1700000000", Call.getJob "transcription-1700000000"], rfl⟩
    rfl rfl rfl rfl

/-- C7: when the polling loop observes terminal status FAILED, the
endpoint raises `HTTPException(500, "Transcription failed.")`, which the
request-boundary handler re-raises as a 500 error whose detail is the
`str()` rendering of that exception; the outcome is an error response,
which structurally carries no `srt_file_url` — no partial result is
returned. -/
theorem c7_failed_never_returns_url (env : Env) (r : JobResponse) (ptr : List Call)
    (hput : env.putResult = .ok ())
    (hstart : env.startJobResult = .ok ())
    (hpoll : pollLoop ("transcription-" ++ toString env.epoch) env.polls
      = some (.ok r, ptr))
    (hstatus : r.status = "FAILED") :
    ∃ tr, transcribe_audio env =
      some (.error ⟨500, "500: Transcription failed."⟩, tr) := by
  have htr : transcribe_audio env =
      some (.error ⟨500, "500: Transcription failed."⟩,
        Call.put BUCKET_NAME ("uploads/" ++ env.filename) ::
          Call.startJob ("transcription-" ++ toString env.epoch) env.language :: ptr) := by
    simp only [transcribe_audio, hput, hstart, hpoll, hstatus, strOfExn]
    rfl
  exact ⟨_, htr⟩

/-- Witness for `c7_failed_never_returns_url` on a concrete environment
whose first poll reports FAILED. -/
theorem c7_failed_never_returns_url_witness :
    ∃ tr, transcribe_audio
        ⟨.ok (), .ok (), [.ok ⟨"FAILED", none⟩], .ok "", fun _ => .ok (),
          1, "b.wav", "en-US"⟩ =
      some (.error ⟨500, "500: Transcription failed."⟩, tr) :=
  c7_failed_never_returns_url
    ⟨.ok (), .ok (), [.ok ⟨"FAILED", none⟩], .ok "", fun _ => .ok (),
      1, "b.wav", "en-US"⟩
    ⟨"FAILED", none⟩ [Call.getJob "transcription-1"] rfl rfl rfl rfl

/-- C8: when the `put_object` upload raises, the request fails fast with
a 500 error carrying the underlying message as free text, and the
recorded side-effect trace is the single upload call — in particular no
`start_transcription_job` call is ever made. -/
theorem c8_put_failure_fails_fast (env : Env) (m : String)
    (hput : env.putResult = .error m) :
    transcribe_audio env = some (.error ⟨500, m⟩,
        [Call.put BUCKET_NAME ("uploads/" ++ env.filename)])
      ∧ callsStartJob [Call.put BUCKET_NAME ("uploads/" ++ env.filename)] = false := by
  refine ⟨?_, rfl⟩
  simp [transcribe_audio, hput, strOfExn]

/-- Witness for `c8_put_failure_fails_fast` on a concrete environment
whose upload fails with an access error. -/
theorem c8_put_failure_fails_fast_witness :
    transcribe_audio
        ⟨.error "AccessDenied", .ok (), [], .ok "", fun _ => .ok (),
          2, "c.wav", "en-US"⟩ =
      some (.error ⟨500, "AccessDenied"⟩, [Call.put BUCKET_NAME "uploads/c.wav"])
      ∧ callsStartJob [Call.put BUCKET_NAME "uploads/c.wav"] = false :=
  c8_put_failure_fails_fast
    ⟨.error "AccessDenied", .ok (), [], .ok "", fun _ => .ok (),
      2, "c.wav", "en-US"⟩ "AccessDenied" rfl

/-- C9: the success response is built solely from the submission epoch
(via the job name) and fixed constants.  Two runs whose environments
agree on everything except the content of the fetched transcript payload
produce identical success responses, and the URL is exactly the fixed
output-bucket URL for the job name: the fetched and parsed transcript
has no influence on the response. -/
theorem c9_transcript_content_noninterference (e1 e2 : Env)
    (hepoch : e1.epoch = e2.epoch)
    (hput : e1.putResult = e2.putResult)
    (hstart : e1.startJobResult = e2.startJobResult)
    (hpolls : e1.polls = e2.polls)
    (hparse : e1.parse = e2.parse)
    (hfile : e1.filename = e2.filename)
    (hlang : e1.language = e2.language)
    (r1 r2 : TranscribeResponse) (tr1 tr2 : List Call)
    (h1 : transcribe_audio e1 = some (.ok r1, tr1))
    (h2 : transcribe_audio e2 = some (.ok r2, tr2)) :
    r1 = r2 ∧ r1.srt_file_url = outputUrl e1.epoch := by
  have s1 := transcribe_ok_shape e1 r1 tr1 h1
  have s2 := transcribe_ok_shape e2 r2 tr2 h2
  rw [s1, s2, hepoch]
  exact ⟨rfl, rfl⟩

/-- Witness for `c9_transcript_content_noninterference`: two concrete
environments identical except for the fetched transcript body. -/
theorem c9_transcript_content_noninterference_witness :
    (⟨"Transcription successful",
        "https://transcription-output-folder.s3.ap-south-1.amazonaws.com/transcription-5.srt"⟩
      : TranscribeResponse) =
      ⟨"Transcription successful",
        "https://transcription-output-folder.s3.ap-south-1.amazonaws.com/transcription-5.srt"⟩
    ∧ (⟨"Transcription successful",
        "https://transcription-output-folder.s3.ap-south-1.amazonaws.com/transcription-5.srt"⟩
      : TranscribeResponse).srt_file_url = outputUrl 5 :=
  c9_transcript_content_noninterference
    ⟨.ok (), .ok (), [.ok ⟨"COMPLETED", some "transcription-output-folder/transcription-5.json"⟩],
      .ok "AAA", fun _ => .ok (), 5, "d.wav", "en-US"⟩
    ⟨.ok (), .ok (), [.ok ⟨"COMPLETED", some "transcription-output-folder/transcription-5.json"⟩],
      .ok "BBB", fun _ => .ok (), 5, "d.wav", "en-US"⟩
    rfl rfl rfl rfl rfl rfl rfl _ _
    [Call.put "transcription-input-folder" "uploads/d.wav",
     Call.startJob "transcription-5" "en-US", Call.getJob "transcription-5",
     Call.getObject "transcription-output-folder" "transcription-5.json"]
    [Call.put "transcription-input-folder" "uploads/d.wav",
     Call.startJob "transcription-5" "en-US", Call.getJob "transcription-5",
     Call.getObject "transcription-output-folder" "transcription-5.json"]
    rfl rfl

end TranscriptionApp
